import Mathlib

/-!
# Verification of the `sunsehttp` wire-protocol layer

Shallow embedding of the wire-protocol code of the `sunsehttp` repository
(`src/sunsehttp/...`): HTTP/1.1 request construction (`Request.construct`),
response parsing (`Response._parse`), redirect dispatch
(`Client.handle_redirects`), the WebSocket handshake checks
(`Websocket.do_connect`) and WebSocket frame decoding (`SocketFrame.parser`),
together with theorems settling the specification's claims about them.

Python byte strings and (ASCII) `str` values are both embedded as `List Nat`
of byte values; `bytes.decode()` is modelled as the identity, which is exact
for ASCII data (all concrete inputs used below are ASCII).  Python run-time
exceptions are modelled by an error type `PyError`, and every fallible
operation returns `Except PyError _`.
-/

namespace Sunsehttp

/-- A Python byte string (or ASCII `str`) as the list of its byte values. -/
abbrev Bytes := List Nat

/-- The bytes of a Lean string literal (ASCII): convenience for writing the
byte strings appearing in the source. -/
def strBytes (s : String) : Bytes :=
  s.data.map Char.toNat

/-- Python exceptions that the embedded code can raise.  `clientError`,
`improperWebsocketCode` and `wsHandshakeFailed` are the exception classes of
`sunsehttp/util/exceptions.py`; the rest are Python built-ins.  The raised
`ClientError` in `Response._parse` carries only a fixed message string and an
empty `reason` attribute (its `__init__` sets `self.reason = ""`), so the
constructor here carries no data.  `wsHandshakeFailed` carries the index of
the failing check in `Websocket.do_connect` (1 = Upgrade, 2 = Connection,
3 = Sec-WebSocket-Accept, 4 = Sec-WebSocket-Protocol). -/
inductive PyError where
  | valueError
  | typeError
  | indexError
  | keyError
  | attributeError
  | clientError
  | improperWebsocketCode
  | wsHandshakeFailed (check : Nat)
  deriving DecidableEq, Repr

/-- ASCII whitespace, the separator class of Python's `bytes.split()` with no
argument (space, tab, LF, VT, FF, CR). -/
def isPyWs (b : Nat) : Bool :=
  b = 32 || b = 9 || b = 10 || b = 11 || b = 12 || b = 13

/-- ASCII decimal digit. -/
def isDigit (b : Nat) : Bool :=
  48 ≤ b && b ≤ 57

/-- ASCII binary digit (for Python `int(s, 2)`). -/
def isBinDigit (b : Nat) : Bool :=
  b = 48 || b = 49

/-- Drop leading ASCII whitespace (Python `int` ignores surrounding
whitespace). -/
def dropWs : Bytes → Bytes
  | [] => []
  | b :: t => if isPyWs b then dropWs t else b :: t

/-- All bytes are ASCII whitespace. -/
def allWs (l : Bytes) : Bool :=
  l.all isPyWs

/-- After the first digit of a Python integer literal: digits, with single
underscores allowed between digits, then optional trailing whitespace.
`digitP` is the digit class of the base in use. -/
def afterDigit (digitP : Nat → Bool) : Bytes → Bool
  | [] => true
  | b :: t =>
    if b = 95 then
      match t with
      | c :: t2 => digitP c && afterDigit digitP t2
      | [] => false
    else if digitP b then afterDigit digitP t
    else isPyWs b && allWs t

/-- Whether Python `int(x)` (with the digit class `digitP`) accepts the byte
string `x`: optional surrounding whitespace, an optional sign, and a nonempty
digit sequence with single underscores between digits. -/
def pyIntValidCore (digitP : Nat → Bool) (l : Bytes) : Bool :=
  match dropWs l with
  | [] => false
  | b :: t =>
    if b = 43 ∨ b = 45 then
      match t with
      | c :: t2 => digitP c && afterDigit digitP t2
      | [] => false
    else digitP b && afterDigit digitP t

/-- The digits of `l` in order (on accepted inputs, whitespace, the sign and
underscores are the only other bytes, so this is exactly the numeral). -/
def digitsOf (digitP : Nat → Bool) (l : Bytes) : Bytes :=
  l.filter digitP

/-- Numeric value of a digit sequence in base `base`, digit value `b - 48`. -/
def natOfDigits (base : Nat) (l : Bytes) : Nat :=
  l.foldl (fun a b => base * a + (b - 48)) 0

/-- Python `int(x)` in base `base` on byte string `x`: `none` models a raised
`ValueError`. -/
def pyIntCore (digitP : Nat → Bool) (base : Nat) (l : Bytes) : Option Int :=
  if pyIntValidCore digitP l then
    match dropWs l with
    | [] => none
    | b :: t =>
      if b = 45 then some (-(natOfDigits base (digitsOf digitP t) : Int))
      else some ((natOfDigits base (digitsOf digitP (b :: t)) : Int))
  else
    none

/-- Python `int(x)` (base 10). -/
def pyInt? (l : Bytes) : Option Int :=
  pyIntCore isDigit 10 l

/-- Python `int(x)` accepts `x` (base 10). -/
def pyIntValid (l : Bytes) : Bool :=
  pyIntValidCore isDigit l

/-- Python `int(x, 2)`. -/
def pyInt2? (l : Bytes) : Option Int :=
  pyIntCore isBinDigit 2 l

/-- Python `bytes.split()` (no argument): split on runs of ASCII whitespace,
discarding empty pieces.  `acc` is the current token, reversed. -/
def pySplitWsGo : Bytes → Bytes → List Bytes
  | [], acc => if acc.isEmpty then [] else [acc.reverse]
  | b :: t, acc =>
    if isPyWs b then
      if acc.isEmpty then pySplitWsGo t [] else acc.reverse :: pySplitWsGo t []
    else
      pySplitWsGo t (b :: acc)

/-- Python `bytes.split()` with no argument. -/
def pySplitWs (l : Bytes) : List Bytes :=
  pySplitWsGo l []

/-- Python `s.split("\r\n")`: split on each occurrence of the two-byte
separator CR LF, keeping empty pieces. -/
def splitCRLF : Bytes → List Bytes
  | [] => [[]]
  | 13 :: 10 :: t => [] :: splitCRLF t
  | b :: t =>
    match splitCRLF t with
    | h :: r => (b :: h) :: r
    | [] => [[b]]

/-- Python `s.removesuffix("\r")`. -/
def removeSuffixCR (l : Bytes) : Bytes :=
  if l.getLast? = some 13 then l.dropLast else l

/-- Python `bytes.upper()` on ASCII data. -/
def pyUpper (l : Bytes) : Bytes :=
  l.map fun b => if 97 ≤ b ∧ b ≤ 122 then b - 32 else b

/-- Python `str.lower()` on ASCII data. -/
def pyLower (l : Bytes) : Bytes :=
  l.map fun b => if 65 ≤ b ∧ b ≤ 90 then b + 32 else b

/-! ## `sunsehttp/util/resp.py`: the `Response` class and `Response._parse` -/

/-- A Python `dict[str, str]` as the list of its (key, value) entries in
insertion order.  `Response._parse` only ever builds one-entry dicts
(`{header_val[0]: header_val[1].removesuffix("\x7b...\x7d")}` — one key each). -/
abbrev PyDict := List (Bytes × Bytes)

/-- The fields of `sunsehttp.util.resp.Response` that `_parse` sets.
`headers` is a Python *list of one-entry dicts*, not a mapping; `data` starts
as `None` (`Option.none`). -/
structure Response where
  headers : List PyDict
  data : Option Bytes
  code : Int
  phrase : Bytes
  encoding : Bytes
  deriving DecidableEq, Repr

/-- Modelled from the spec: `error_code_reasons`, the static status → reason
table imported by `resp.py` from `sunsehttp/util/constants.py`, a file that is
not present under `src/`.  The spec describes it as "a human-readable reason
derived from a static status→reason table"; the phrases below are the RFC 2616
§6.1.1 reason phrases for the 4xx/5xx codes.  A code outside the table makes
the Python subscript `error_code_reasons[inited.code]` raise `KeyError`. -/
def error_code_reasons (c : Int) : Option Bytes :=
  if c = 400 then some (strBytes "Bad Request")
  else if c = 401 then some (strBytes "Unauthorized")
  else if c = 402 then some (strBytes "Payment Required")
  else if c = 403 then some (strBytes "Forbidden")
  else if c = 404 then some (strBytes "Not Found")
  else if c = 405 then some (strBytes "Method Not Allowed")
  else if c = 406 then some (strBytes "Not Acceptable")
  else if c = 407 then some (strBytes "Proxy Authentication Required")
  else if c = 408 then some (strBytes "Request Timeout")
  else if c = 409 then some (strBytes "Conflict")
  else if c = 410 then some (strBytes "Gone")
  else if c = 411 then some (strBytes "Length Required")
  else if c = 412 then some (strBytes "Precondition Failed")
  else if c = 413 then some (strBytes "Request Entity Too Large")
  else if c = 414 then some (strBytes "Request-URI Too Long")
  else if c = 415 then some (strBytes "Unsupported Media Type")
  else if c = 416 then some (strBytes "Requested Range Not Satisfiable")
  else if c = 417 then some (strBytes "Expectation Failed")
  else if c = 500 then some (strBytes "Internal Server Error")
  else if c = 501 then some (strBytes "Not Implemented")
  else if c = 502 then some (strBytes "Bad Gateway")
  else if c = 503 then some (strBytes "Service Unavailable")
  else if c = 504 then some (strBytes "Gateway Timeout")
  else if c = 505 then some (strBytes "HTTP Version Not Supported")
  else none

/-- Statement `code_header_data = response.split(b"\n")`, first element
(`bytes.split` always returns at least one piece). -/
def firstLine (incoming : Bytes) : Bytes :=
  (List.splitOn 10 incoming).headD []

/-- Tokenisation `code_header_data[0].split()`. -/
def statusTokens (incoming : Bytes) : List Bytes :=
  pySplitWs (firstLine incoming)

/-- Statement `inited.code = int(code_header_data[0].split()[1])`: `IndexError` when the
first line has fewer than two whitespace-separated tokens, `ValueError` from
`int` when the second token is not a Python integer literal. -/
def parseCode (incoming : Bytes) : Except PyError Int :=
  match (statusTokens incoming).get? 1 with
  | none => .error .indexError
  | some t =>
    match pyInt? t with
    | none => .error .valueError
    | some v => .ok v

/-- Statement `inited.phrase = code_header_data[0].split()[2].decode()`: only the THIRD
whitespace-separated token of the status line (a multi-word reason phrase is
truncated at its first word).  `.decode()` is modelled as the identity (exact
for ASCII). -/
def parsePhrase (incoming : Bytes) : Except PyError Bytes :=
  match (statusTokens incoming).get? 2 with
  | none => .error .indexError
  | some t => .ok t

/-- One iteration of the `for n, i in enumerate(code_header_data)` loop of
`Response._parse`, after `code_header_data.pop(0)`:

* a line containing a colon is split at EVERY colon and only pieces 0 and 1
  are kept (`i.decode().split(":")`, `header_val[0]`, `header_val[1]`), the
  value keeping its leading space and losing a trailing CR; the pair is
  appended as a fresh one-entry dict;
* the line `b"\r"` sets `inited.data = incoming[n + 1:]` — `n` is the LINE
  index in the popped list, used as a BYTE offset into `incoming`. -/
def scanStep (incoming : Bytes) (st : List PyDict × Option Bytes)
    (ni : Nat × Bytes) : List PyDict × Option Bytes :=
  let n := ni.1
  let i := ni.2
  let hs :=
    if 58 ∈ i then
      let parts := List.splitOn 58 i
      st.1 ++ [[(parts.headD [], removeSuffixCR ((parts.get? 1).getD []))]]
    else st.1
  let d := if i = [13] then some (incoming.drop (n + 1)) else st.2
  (hs, d)

/-- The whole header/body loop of `Response._parse`: fold `scanStep` over the
enumerated lines after the status line. -/
def headerDataScan (incoming : Bytes) : List PyDict × Option Bytes :=
  ((List.splitOn 10 incoming).tail.enum).foldl (scanStep incoming) ([], none)

/-- Python truthiness of `inited.data` (`None` and `b""` are falsy). -/
def dataTruthy : Option Bytes → Bool
  | none => false
  | some d => !d.isEmpty

/-- Method `Response.unencode_gzip`: the method writes `self.data` into a freshly
instantiated `typing.BinaryIO()` — an abstract-class stub whose `write`
discards its argument and whose `read` returns `None` — and then reads it back
through `gzip.GzipFile`, which raises `TypeError` ("can't concat NoneType to
bytes") for every input.  The method therefore never inflates anything. -/
def unencode_gzip (_r : Response) : Except PyError Response :=
  .error .typeError

/-- The loop head `for i, v in inited.headers:` unpacks each element (a dict)
into two names.  Python tuple-unpacking of a dict iterates its KEYS, so a
two-key dict unpacks into its two keys and every other size raises
`ValueError`.  `_parse` only ever appends one-entry dicts, so with any header
present this raises. -/
def unpackPair (d : PyDict) : Except PyError (Bytes × Bytes) :=
  match d.map Prod.fst with
  | [k1, k2] => .ok (k1, k2)
  | _ => .error .valueError

/-- The `Content-Encoding` dispatch loop of `Response._parse`
(`for i, v in inited.headers: if i == "Content-Encoding": ...`):
`gzip` calls `unencode_gzip` and continues the loop; `identity` RETURNS the
response early; any other token calls `unencoder(inited.data)` — with the body
only, not the encoding token — and DISCARDS its result. -/
def contentEncodingLoop (unencoder : Option (Bytes → Bytes)) :
    List PyDict → Response → Except PyError Response
  | [], r => .ok r
  | d :: t, r =>
    match unpackPair d with
    | .error e => .error e
    | .ok (i, v) =>
      if i = strBytes "Content-Encoding" then
        let r1 : Response := { r with encoding := v }
        if v = strBytes "gzip" then
          match unencode_gzip r1 with
          | .error e => .error e
          | .ok r2 => contentEncodingLoop unencoder t r2
        else if v = strBytes "identity" then
          .ok r1
        else
          match unencoder with
          | some f =>
            let _ := f (r1.data.getD [])
            contentEncodingLoop unencoder t r1
          | none => contentEncodingLoop unencoder t r1
      else contentEncodingLoop unencoder t r

/-- Classmethod `Response._parse(incoming, strict_error, unencoder)`
(`src/sunsehttp/util/resp.py`): parse the status line, scan the remaining
lines for headers and the body marker, apply the strict-mode check and the
content-encoding loop.  Exceptions raised along the way are the `.error`
values. -/
def Response.parse (incoming : Bytes) (strict_error : Bool)
    (unencoder : Option (Bytes → Bytes)) : Except PyError Response :=
  match parseCode incoming with
  | .error e => .error e
  | .ok code =>
    match parsePhrase incoming with
    | .error e => .error e
    | .ok phrase =>
      let hd := headerDataScan incoming
      let inited : Response :=
        { headers := hd.1, data := hd.2, code := code, phrase := phrase,
          encoding := [] }
      if strict_error ∧ 400 ≤ code then
        -- `inited.error_info.reason = error_code_reasons[inited.code]` (a
        -- `KeyError` for codes outside the table), then
        -- `raise ClientError("Code of above (or equal to) 400 ...")` — the
        -- raised exception carries only that fixed message; the looked-up
        -- reason lives on the `error_info` of the response object, which is
        -- discarded by the raise.
        match error_code_reasons code with
        | none => .error .keyError
        | some _reason => .error .clientError
      else if dataTruthy inited.data then
        contentEncodingLoop unencoder inited.headers inited
      else
        .ok inited

/-! ## `sunsehttp/util/http_request.py`: `Request.construct` and
`Headers.instantiate` -/

/-- A Python value in a `data` position: `None`, a `str`, or a `bytes`. -/
inductive PyData where
  | pyNone
  | str (s : Bytes)
  | bytes (b : Bytes)
  deriving DecidableEq, Repr

/-- Python truthiness of a `data` value (`None`, `""` and `b""` are falsy). -/
def PyData.truthy : PyData → Bool
  | .pyNone => false
  | .str s => !s.isEmpty
  | .bytes b => !b.isEmpty

/-- Method `Request.construct(self)` (`src/sunsehttp/util/http_request.py`): builds
the request text as a `str` and encodes it.  Statement by statement:

* request line, `User-Agent`, `Accept`, `Host`;
* `res += "\r\n"` — the blank line, emitted HERE, before the user headers;
* `if self.headers: for i in self.headers: res += f"..."` — the user headers
  (iterating an empty dict appends nothing, so the guard is redundant);
* `if self.method.upper() != "GET" or self.data:` — a SECOND `"\r\n"` and then
  `res += self.data`; since `res` is a `str`, a `None` or `bytes` body raises
  `TypeError` here (only a `str` body concatenates). -/
def Request.construct (method path url : Bytes) (headers : List (Bytes × Bytes))
    (data : PyData) : Except PyError Bytes :=
  let m := pyUpper method
  let res := m ++ strBytes " " ++ path ++ strBytes " HTTP/1.1\r\n"
    ++ strBytes "User-Agent: sunsehttp/0.1.0\r\n"
    ++ strBytes "Accept: */*\r\n"
    ++ strBytes "Host: " ++ url ++ strBytes "\r\n"
    ++ strBytes "\r\n"
  let res := res ++ headers.foldl
    (fun acc kv => acc ++ kv.1 ++ strBytes ": " ++ kv.2 ++ strBytes "\r\n") []
  if m ≠ strBytes "GET" ∨ data.truthy then
    match data with
    | .str s => .ok (res ++ strBytes "\r\n" ++ s)
    | _ => .error .typeError
  else
    .ok res

/-- The result of `Headers.instantiate`: the `code` attribute and the sequence
of `__setattr__(name, value)` calls it performs (later duplicates would
overwrite earlier ones; the order is kept here). -/
structure HeadersObj where
  code : Int
  attrs : List (Bytes × Bytes)
  deriving DecidableEq, Repr

/-- Expression `i.split(":")[0].lower().replace("-", "_")`. -/
def attrName (k : Bytes) : Bytes :=
  (pyLower k).map fun b => if b = 45 then 95 else b

/-- One line of the `Headers.instantiate` loop:
`self.__setattr__(i.split(":")[0].lower().replace("-", "_"), i.split(":")[1])`.
A line with no colon makes `i.split(":")[1]` raise `IndexError`. -/
def instantiateLine (i : Bytes) : Except PyError (Bytes × Bytes) :=
  let parts := List.splitOn 58 i
  match parts.get? 1 with
  | none => .error .indexError
  | some v => .ok (attrName (parts.headD []), v)

/-- Method `Headers.instantiate(self, data)` (`src/sunsehttp/util/http_request.py`):
`r = data.split("\r\n")`, `self.code = int(r[0])` (a `ValueError` when the
first line is not an integer literal — `Client.head` feeds the entire raw
decoded response, whose first line is an HTTP status line, into this), then
the setattr loop over the remaining lines. -/
def Headers.instantiate (data : Bytes) : Except PyError HeadersObj :=
  let r := splitCRLF data
  match pyInt? (r.headD []) with
  | none => .error .valueError
  | some code =>
    match r.tail.mapM instantiateLine with
    | .error e => .error e
    | .ok attrs => .ok { code := code, attrs := attrs }

/-! ## `sunsehttp/_http.py`: `Client.handle_redirects` -/

/-- The keys of the `methods` dict in `Client.handle_redirects`. -/
def knownRedirectMethod (m : Bytes) : Bool :=
  m = strBytes "GET" || m = strBytes "PUT" || m = strBytes "POST" ||
  m = strBytes "DELETE" || m = strBytes "TRACE" || m = strBytes "OPTIONS" ||
  m = strBytes "HEAD"

/-- The pattern `case 301, 302, 303, 305:` of `Client.handle_redirects` is an
open SEQUENCE pattern: it matches sequences of length 4 with these elements.
The subject `response.code` is an `int`, which never matches a sequence
pattern, so the arm can never fire (checked against CPython 3.11). -/
def intMatchesSeqPattern_301_302_303_305 (_code : Int) : Bool :=
  false

/-- What the (dead) redirect arm would produce. -/
inductive RedirectOutcome where
  | redirected (uri : Bytes) (method : Bytes)
  deriving DecidableEq, Repr

/-- Method `Client.handle_redirects(response, method, headers, data)`
(`src/sunsehttp/_http.py`) on a `Response` argument
(`isinstance(response, Response)` holds):

* `if response.code >= 300 < 400:` is the chained comparison
  `code >= 300 and 300 < 400`, i.e. just `code >= 300`;
* inside it, `match response.code` with the single sequence-pattern arm,
  whose body would evaluate `response.headers["Location"]` — indexing a LIST
  with a `str`, a `TypeError` — before calling `response.redirect`;
* when no arm matches (always), and likewise when `code < 300`, control falls
  through to `methods[method](response.location)`: `methods[method]` is
  looked up first (`KeyError` for an unknown method name), then
  `response.location` is evaluated — `Response` has no `location` attribute,
  an `AttributeError`. -/
def handle_redirects (response : Response) (method : Bytes) :
    Except PyError RedirectOutcome :=
  if 300 ≤ response.code ∧ (300 : Int) < 400 then
    if intMatchesSeqPattern_301_302_303_305 response.code then
      .error .typeError
    else if knownRedirectMethod method then .error .attributeError
    else .error .keyError
  else if knownRedirectMethod method then .error .attributeError
  else .error .keyError

/-! ## `sunsehttp/ws/_client.py`: the handshake checks of
`Websocket.do_connect` -/

/-- Expression `res.headers.get(...)` as called in `Websocket.do_connect`:
`Response.headers` is a Python LIST (of one-entry dicts) and `list` has no
`get` method, so every such call raises `AttributeError`. -/
def headersGet (_hs : List PyDict) (_k : Bytes) : Except PyError (Option Bytes) :=
  .error .attributeError

/-- A Python `str` compared with `==`/`!=` against a `bytes` object: never
equal.  Used for `self.sha_1 != self.__expectedkey` (a header `str` against
the `base64.standard_b64encode(...)` `bytes`). -/
def strEqBytes (_s : Bytes) (_b : Bytes) : Bool :=
  false

/-- The GUID literal actually present in `Websocket.do_connect`: the final
`1` of the RFC 6455 GUID `258EAFA5-E914-47DA-95CA-C5AB0DC85B11` is missing. -/
def wsGuidInCode : Bytes :=
  strBytes "258EAFA5-E914-47DA-95CA-C5AB0DC85B1"

/-- The handshake-validation part of `Websocket.do_connect`
(`src/sunsehttp/ws/_client.py`), as a function of the parsed server response
and of the precomputed `self.__expectedkey` bytes.  The file as committed does
not even import: it imports from the nonexistent package `sunsehttp.http`, and
the `Connection` check's `if` line is missing its trailing colon (a
`SyntaxError`); this embedding follows the evident intended control flow of
its statements.  Check by check:

* `self.sha_1 = res.headers.get("Sec-Websocket-Accept")` — the very first
  header access, which raises `AttributeError` (`headers` is a list);
* `res.code != 101` → `ImproperWebsocketCode`;
* `Upgrade` missing or `.lower() != "websocket"` → `WsHandshakeFailed`;
* `Connection` missing or `.lower() != "Upgrade"` — compared against
  `"Upgrade"` with a capital U, which a lowercased string can never equal;
* `self.sha_1 is None or self.sha_1 != self.__expectedkey` — a `str` compared
  to `bytes`, never equal;
* a truthy `Sec-Websocket-Protocol` → `WsHandshakeFailed`. -/
def wsDoConnectChecks (res : Response) (expectedkey : Bytes) :
    Except PyError Unit := do
  let sha1 ← headersGet res.headers (strBytes "Sec-Websocket-Accept")
  if res.code ≠ 101 then
    throw .improperWebsocketCode
  let up ← headersGet res.headers (strBytes "Upgrade")
  if up = none ∨ pyLower (up.getD []) ≠ strBytes "websocket" then
    throw (.wsHandshakeFailed 1)
  let conn ← headersGet res.headers (strBytes "Connection")
  if conn = none ∨ pyLower (conn.getD []) ≠ strBytes "Upgrade" then
    throw (.wsHandshakeFailed 2)
  if sha1 = none ∨ ¬ strEqBytes (sha1.getD []) expectedkey then
    throw (.wsHandshakeFailed 3)
  let proto ← headersGet res.headers (strBytes "Sec-Websocket-Protocol")
  if (match proto with | some p => !p.isEmpty | none => false) then
    throw (.wsHandshakeFailed 4)
  pure ()

/-! ## `sunsehttp/ws/frame.py`: `SocketFrame.parser` -/

/-- Python slice `l[a:b]` for `0 ≤ a ≤ b` (out-of-range indices clamp). -/
def sliceStr (l : Bytes) (a b : Nat) : Bytes :=
  (l.take b).drop a

/-- Binary digits of a natural number, most significant first
(`Nat.toDigits 2 0 = "0"`, matching Python). -/
def natBinBytes (n : Nat) : Bytes :=
  (Nat.toDigits 2 n).map Char.toNat

/-- Python `f"{n:b}"`: a minus sign followed by the binary digits of the
absolute value for negative `n`. -/
def pyBinFmt (n : Int) : Bytes :=
  if n < 0 then 45 :: natBinBytes (-n).toNat else natBinBytes n.toNat

/-- Python `(m >> k) & 1 == 1` on an `int` (`>>` is an arithmetic, i.e.
flooring, shift and `%` is floor-mod, so this is `⌊m / 2^k⌋ mod 2`). -/
def intBit (m : Int) (k : Nat) : Bool :=
  Int.fdiv m (2 ^ k) % 2 = 1

/-- Python `a & b` for the two nonnegative operands it is applied to in
`SocketFrame.parser` (both parsed from sign-free digit slices). -/
def pyAndNonneg (a b : Int) : Int :=
  Int.ofNat (Nat.land a.toNat b.toNat)

/-- The fields of `sunsehttp.ws.frame.SocketFrame` that `parser` sets. -/
structure SocketFrame where
  final : Bool
  opcode : Int
  masked : Bool
  mask : Int
  data : Bytes
  deriving DecidableEq, Repr

/-- Method `SocketFrame.parser(self)` (`src/sunsehttp/ws/frame.py`), statement by
statement:

* `inted = int(self.parse)` — Python `int()` applied to the RAW FRAME BYTES,
  which parses them as a decimal numeral and raises `ValueError` unless the
  whole frame happens to be ASCII digits (with optional sign/whitespace);
* `for n in range(0, inted + 1): ...` — the counter `i` equals `n`, so the
  loop sets `final` iff the range contains 0 (`inted ≥ 0`) and bit 0 of
  `inted` is set, and `masked` iff it contains 8 (`inted ≥ 8`) and bit 8 is
  set;
* `binary_rep = f"{inted:b}"`, `self.opcode = int(binary_rep[4:7], 2)` — an
  empty or sign-bearing slice raises `ValueError`;
* `if 0 <= int(binary_rep[9:16], 2) <= 125 and self.masked:` then
  `self.mask = int(binary_rep[17:49], 2)` and
  `self.data = bytes(int(binary_rep[50:]) & self.mask)` — `int(...)` of the
  tail slice in BASE 10, and `bytes(k)` is `k` ZERO bytes. -/
def SocketFrame.parser (frame : Bytes) : Except PyError SocketFrame :=
  match pyInt? frame with
  | none => .error .valueError
  | some inted =>
    let final := decide (0 ≤ inted) && intBit inted 0
    let masked := decide (8 ≤ inted) && intBit inted 8
    let binary_rep := pyBinFmt inted
    match pyInt2? (sliceStr binary_rep 4 7) with
    | none => .error .valueError
    | some opcode =>
      match pyInt2? (sliceStr binary_rep 9 16) with
      | none => .error .valueError
      | some lenInd =>
        if 0 ≤ lenInd ∧ lenInd ≤ 125 ∧ masked then
          match pyInt2? (sliceStr binary_rep 17 49) with
          | none => .error .valueError
          | some mask =>
            match pyInt? (binary_rep.drop 50) with
            | none => .error .valueError
            | some dataInt =>
              .ok { final := final, opcode := opcode, masked := masked,
                    mask := mask,
                    data := List.replicate (pyAndNonneg dataInt mask).toNat 0 }
        else
          .ok { final := final, opcode := opcode, masked := masked,
                mask := 0, data := [] }

/-! ## Concrete inputs used by the claim theorems -/

/-- Whether an `Except` computation succeeded. -/
def exceptIsOk {α : Type} : Except PyError α → Bool
  | .ok _ => true
  | .error _ => false

/-- The spec's example input for response parsing. -/
def c1Input : Bytes :=
  strBytes "HTTP/1.1 404 Not Found\r\nContent-Type: text/plain\r\n\r\nnope"

/-- Response with `Content-Encoding: gzip` and a body. -/
def c3GzipInput : Bytes :=
  strBytes "HTTP/1.1 200 OK\r\nContent-Encoding: gzip\r\n\r\nZZ"

/-- Response with `Content-Encoding: identity` and a body. -/
def c3IdentityInput : Bytes :=
  strBytes "HTTP/1.1 200 OK\r\nContent-Encoding: identity\r\n\r\nZZ"

/-- Response with an unrecognised `Content-Encoding` and a body. -/
def c3CustomInput : Bytes :=
  strBytes "HTTP/1.1 200 OK\r\nContent-Encoding: br\r\n\r\nZZ"

/-- A 500 response with one header and a body. -/
def c7Input : Bytes :=
  strBytes "HTTP/1.1 500 Internal Server Error\r\nContent-Type: text/plain\r\n\r\noops"

/-- A response carrying a Location header, with the given status code. -/
def c8Response (code : Int) : Response :=
  { headers := [[(strBytes "Location", strBytes "http://example.com/new")]],
    data := none, code := code, phrase := strBytes "Moved", encoding := [] }

/-- Status line whose status token is the 2-digit integer 12. -/
def c9Input : Bytes :=
  strBytes "HTTP/1.1 12 OK\r\n\r\n"

/-! ## Helper lemmas: when Python `int` rejects a byte string -/

theorem dropWs_cons (b : Nat) (t : Bytes) :
    dropWs (b :: t) = if isPyWs b then dropWs t else b :: t :=
  rfl

theorem afterDigit_cons_false {digitP : Nat → Bool} (b : Nat) (t : Bytes)
    (h95 : b ≠ 95) (hdig : digitP b = false) (hws : isPyWs b = false) :
    afterDigit digitP (b :: t) = false := by
  unfold afterDigit
  simp [h95, hdig, hws]

/-- A head byte that is not whitespace, not a sign and not a digit makes
Python `int` reject the whole token. -/
theorem pyIntValidCore_head_false {digitP : Nat → Bool} (b : Nat) (t : Bytes)
    (hws : isPyWs b = false) (h43 : b ≠ 43) (h45 : b ≠ 45)
    (hdig : digitP b = false) :
    pyIntValidCore digitP (b :: t) = false := by
  unfold pyIntValidCore
  rw [dropWs_cons]
  simp [hws, h43, h45, hdig]

/-- A second byte ≥ 128 (in particular, a length byte with the MASK bit set)
makes Python `int` reject the whole byte string. -/
theorem pyIntValidCore_second_big (b0 b1 : Nat) (t : Bytes) (h : 128 ≤ b1) :
    pyIntValidCore isDigit (b0 :: b1 :: t) = false := by
  have hws1 : isPyWs b1 = false := by simp [isPyWs]; omega
  have hdig1 : isDigit b1 = false := by simp [isDigit]; omega
  have h95 : b1 ≠ 95 := by omega
  have haft : afterDigit isDigit (b1 :: t) = false :=
    afterDigit_cons_false b1 t h95 hdig1 hws1
  unfold pyIntValidCore
  rw [dropWs_cons]
  by_cases hws0 : isPyWs b0
  · rw [if_pos hws0, dropWs_cons]
    simp [hws1, hdig1]
    omega
  · rw [if_neg hws0]
    by_cases hsg : b0 = 43 ∨ b0 = 45
    · simp [hsg, hdig1]
    · simp [hsg, haft]

theorem pyInt_second_big (b0 b1 : Nat) (t : Bytes) (h : 128 ≤ b1) :
    pyInt? (b0 :: b1 :: t) = none := by
  unfold pyInt? pyIntCore
  rw [pyIntValidCore_second_big b0 b1 t h]
  simp

/-! ## The claims -/

/-- C1: the spec claims `Response._parse` on the example bytes with
strict=false returns code 404, phrase "Not Found", headers
[("Content-Type", "text/plain")] and body b"nope".  On the code the call
raises `ValueError` (the `for i, v in inited.headers` unpack of the one-entry
header dicts); moreover the stages that did run produced phrase "Not" (only
the third whitespace token), header value " text/plain" (leading space kept),
and a body equal to `incoming[2:]` (the line index 1 of the blank line, plus
one, used as a byte offset). -/
theorem claim_C1_code_eval :
    Response.parse c1Input false none = .error .valueError ∧
    parseCode c1Input = .ok 404 ∧
    parsePhrase c1Input = .ok (strBytes "Not") ∧
    (headerDataScan c1Input).1 =
      [[(strBytes "Content-Type", strBytes " text/plain")]] ∧
    (headerDataScan c1Input).2 = some (c1Input.drop 2) :=
  ⟨rfl, rfl, rfl, rfl, rfl⟩

/-- C2: the spec claims the encoded request is request line, header block,
exactly one CRLF CRLF separator, then the body.  On the code the blank line is
emitted BEFORE the user-supplied headers and a SECOND blank line is emitted
before the body, so a POST with one custom header and body "abc" contains the
custom header between two blank lines; and a POST with no body raises
`TypeError` (`res += None`). -/
theorem claim_C2_code_eval :
    Request.construct (strBytes "POST") (strBytes "/p") (strBytes "example.com")
        [(strBytes "X-Custom", strBytes "1")] (.str (strBytes "abc")) =
      .ok (strBytes "POST /p HTTP/1.1\r\nUser-Agent: sunsehttp/0.1.0\r\nAccept: */*\r\nHost: example.com\r\n"
        ++ strBytes "\r\n" ++ strBytes "X-Custom: 1\r\n"
        ++ strBytes "\r\n" ++ strBytes "abc") ∧
    Request.construct (strBytes "POST") (strBytes "/p") (strBytes "example.com")
        [] .pyNone = .error .typeError :=
  ⟨rfl, rfl⟩

/-- C3: the spec claims gzip bodies are inflated, identity bodies left alone,
and other encodings handed to a custom decoder.  On the code all three cases
raise `ValueError`: whenever the body is truthy and a header exists, the loop
head `for i, v in inited.headers` unpacks a one-entry dict into two names.
(Even were that fixed, the parsed encoding value is " gzip" with a leading
space, `unencode_gzip` raises `TypeError` on every input, and the custom
decoder is called with the body only and its result discarded.) -/
theorem claim_C3_code_eval :
    Response.parse c3GzipInput false none = .error .valueError ∧
    Response.parse c3IdentityInput false none = .error .valueError ∧
    Response.parse c3CustomInput false (some (fun b => b)) = .error .valueError ∧
    (headerDataScan c3GzipInput).1 =
      [[(strBytes "Content-Encoding", strBytes " gzip")]] :=
  ⟨rfl, rfl, rfl, rfl⟩

/-- C4: the spec claims the handshake is accepted exactly when status is 101,
Upgrade/Connection/Sec-WebSocket-Accept are all correct and no subprotocol is
present.  On the code NO response is ever accepted: the very first statement
after parsing, `self.sha_1 = res.headers.get("Sec-Websocket-Accept")`, calls
`.get` on a LIST and raises `AttributeError` for every response — including a
perfectly valid 101 handshake. -/
theorem claim_C4_never_accepts :
    ∀ (res : Response) (expectedkey : Bytes),
      wsDoConnectChecks res expectedkey = .error .attributeError :=
  fun _ _ => rfl

/-- C5: the spec claims that a frame with the MASK bit set and a 7-bit length
indicator ≤ 125 is decoded by reading the next 4 bytes as the masking key and
XOR-unmasking the payload.  On the code, for EVERY such frame `parser` raises
`ValueError` at its first statement `inted = int(self.parse)`: the length
byte has its top bit set, so it is not part of any decimal numeral.  No
masking key is ever read and no payload is ever unmasked. -/
theorem claim_C5_masked_frames_fail (b0 b1 : Nat) (rest : Bytes)
    (hmask : 128 ≤ b1) (_hbyte : b1 < 256) (_hlen : b1 % 128 ≤ 125) :
    SocketFrame.parser (b0 :: b1 :: rest) = .error .valueError := by
  unfold SocketFrame.parser
  rw [pyInt_second_big b0 b1 rest hmask]

/-- C5 witness: the concrete masked frame 0x81 0x85, key 01 02 03 04 and a
5-byte masked payload. -/
theorem claim_C5_witness :
    128 ≤ 133 ∧ 133 < 256 ∧ 133 % 128 ≤ 125 ∧
    SocketFrame.parser (129 :: 133 :: [1, 2, 3, 4, 105, 103, 111, 104, 108]) =
      .error .valueError :=
  ⟨by decide, by decide, by decide,
    claim_C5_masked_frames_fail 129 133 [1, 2, 3, 4, 105, 103, 111, 104, 108]
      (by decide) (by decide) (by decide)⟩

/-- C6: the spec claims decoding frame 0x81 0x05 "hello" yields final=true,
opcode=TEXT, masked=false, data=b"hello".  On the code `parser` begins with
`int(self.parse)` on the raw frame bytes, which are not a decimal numeral, so
it raises `ValueError` and sets nothing. -/
theorem claim_C6_code_eval :
    SocketFrame.parser (129 :: 5 :: strBytes "hello") = .error .valueError :=
  rfl

/-- C7: the spec claims ≥400 responses raise `ClientOrServerError` carrying
status and reason under strict=true and are returned untouched under
strict=false.  On the code, strict=true raises `ClientError` whose payload is
a fixed message and whose `reason` attribute is empty (the table lookup is
stored on the DISCARDED response object), and strict=false raises
`ValueError` (header-dict unpacking) instead of returning. -/
theorem claim_C7_code_eval :
    Response.parse c7Input true none = .error .clientError ∧
    Response.parse c7Input false none = .error .valueError ∧
    error_code_reasons 500 = some (strBytes "Internal Server Error") ∧
    parseCode c7Input = .ok 500 :=
  ⟨rfl, rfl, rfl, rfl⟩

/-- C8: the spec claims codes 301/302/303/305 with a Location header trigger a
redirect reusing the method.  On the code no redirect is ever issued: the arm
`case 301, 302, 303, 305:` is a sequence pattern that an `int` never matches,
so for every one of these codes (and any other) control falls through to
`methods[method](response.location)`, which raises `AttributeError` because
`Response` has no `location` attribute.  The Location header is never read. -/
theorem claim_C8_code_eval :
    handle_redirects (c8Response 301) (strBytes "GET") = .error .attributeError ∧
    handle_redirects (c8Response 302) (strBytes "GET") = .error .attributeError ∧
    handle_redirects (c8Response 303) (strBytes "GET") = .error .attributeError ∧
    handle_redirects (c8Response 305) (strBytes "GET") = .error .attributeError ∧
    handle_redirects (c8Response 200) (strBytes "GET") = .error .attributeError :=
  ⟨rfl, rfl, rfl, rfl, rfl⟩

/-- C9 counterexample: the claim says the first-line parse fails exactly when
the status token is not a 3-digit integer; on the input whose status token is
"12" — an integer of 2 digits, not 3 — no failure occurs: `_parse` returns a
response with code 12 (and, incidentally, a body equal to `incoming[1:]`). -/
theorem claim_C9_counterexample :
    (statusTokens c9Input).get? 1 = some (strBytes "12") ∧
    (strBytes "12").length = 2 ∧
    parseCode c9Input = .ok 12 ∧
    Response.parse c9Input false none = .ok
      { headers := [], data := some (c9Input.drop 1), code := 12,
        phrase := strBytes "OK", encoding := [] } :=
  ⟨rfl, rfl, rfl, rfl⟩

/-- C9 (amended): the status-line stage of `Response._parse` fails — with
`ValueError` from `int`, the code has no `MalformedResponse` class — exactly
when the second whitespace-separated token of the first line is not a valid
Python integer literal; 3-digitness is not required.  When the token is
invalid the whole `_parse` call raises that `ValueError`. -/
theorem claim_C9_amended (inp t : Bytes)
    (h : (statusTokens inp).get? 1 = some t) :
    exceptIsOk (parseCode inp) = pyIntValid t ∧
    (pyIntValid t = false → ∀ (strict : Bool) (u : Option (Bytes → Bytes)),
      Response.parse inp strict u = .error .valueError) := by
  have hpc : parseCode inp =
      (match pyInt? t with
        | none => .error .valueError
        | some v => .ok v) := by
    unfold parseCode
    rw [h]
  constructor
  · rw [hpc]
    unfold pyInt? pyIntCore pyIntValid
    by_cases hv : pyIntValidCore isDigit t
    · rw [if_pos hv, hv]
      cases hd : dropWs t with
      | nil =>
        exfalso
        unfold pyIntValidCore at hv
        rw [hd] at hv
        simp at hv
      | cons b t2 =>
        by_cases hb : b = 45 <;> simp [hb, exceptIsOk]
    · rw [if_neg hv]
      simp only [Bool.not_eq_true] at hv
      rw [hv]
      rfl
  · intro hfalse strict u
    have hnone : pyInt? t = none := by
      unfold pyInt? pyIntCore
      unfold pyIntValid at hfalse
      rw [hfalse]
      rfl
    have hpc2 : parseCode inp = .error .valueError := by
      rw [hpc, hnone]
    unfold Response.parse
    rw [hpc2]

/-- C9 witness: the amended statement applied to the 2-digit-status input. -/
theorem claim_C9_witness :
    (statusTokens c9Input).get? 1 = some (strBytes "12") ∧
    (exceptIsOk (parseCode c9Input) = pyIntValid (strBytes "12") ∧
     (pyIntValid (strBytes "12") = false →
       ∀ (strict : Bool) (u : Option (Bytes → Bytes)),
         Response.parse c9Input strict u = .error .valueError)) :=
  ⟨rfl, claim_C9_amended c9Input (strBytes "12") rfl⟩

/-- C10: for every input whose first CRLF-delimited line is an HTTP status
line `HTTP/1.1 ...` rather than a bare integer, `Headers.instantiate` raises
`ValueError` at `self.code = int(r[0])` — so `Client.head`, which feeds the
whole decoded response into `instantiate`, can never return a `Headers` value
for a conforming HTTP response. -/
theorem claim_C10_instantiate_fails (data rest : Bytes)
    (h : (splitCRLF data).headD [] = strBytes "HTTP/1.1" ++ rest) :
    Headers.instantiate data = .error .valueError := by
  have hcons : strBytes "HTTP/1.1" ++ rest
      = 72 :: (strBytes "TTP/1.1" ++ rest) := rfl
  have hval : pyIntValidCore isDigit (strBytes "HTTP/1.1" ++ rest) = false := by
    rw [hcons]
    exact pyIntValidCore_head_false 72 _ (by decide) (by decide) (by decide)
      (by decide)
  have hnone : pyInt? ((splitCRLF data).headD []) = none := by
    rw [h]
    unfold pyInt? pyIntCore
    rw [hval]
    rfl
  simp only [Headers.instantiate]
  rw [hnone]

/-- C10 witness: `Headers.instantiate` on a conforming 200 response. -/
theorem claim_C10_witness :
    (splitCRLF (strBytes "HTTP/1.1 200 OK\r\nContent-Type: text/html\r\n\r\n")).headD []
      = strBytes "HTTP/1.1" ++ strBytes " 200 OK" ∧
    Headers.instantiate (strBytes "HTTP/1.1 200 OK\r\nContent-Type: text/html\r\n\r\n")
      = .error .valueError :=
  ⟨rfl, claim_C10_instantiate_fails
    (strBytes "HTTP/1.1 200 OK\r\nContent-Type: text/html\r\n\r\n")
    (strBytes " 200 OK") rfl⟩

end Sunsehttp
